import Mathlib

/-!
Verification development for the lab temperature/humidity control backend.

Shallow embedding of the relevant parts of the code base:
* `Rules` — `controller/rules.py` (`decide` and its helpers);
* `StateMem` — `controller/state_memory.py` (`update_sensor`, the watchdog pass);
* `Mqtt` — `Device_connectors/mqtt_client.py` (`MqttClient._on_message`);
* `Bridge` — `Device_connectors/sensor_bridge.py` (`on_sensor_message`).

Python floats are embedded as `ℚ`, timestamps as `ℤ`, dictionaries as
insertion-ordered association lists (assignment to an existing key replaces
the value in place, matching CPython dict semantics).
-/

namespace LabCtl

/-- Association-list lookup, mirroring Python `d.get(k)` on an
insertion-ordered dict. -/
def lookupA {α : Type} : List (String × α) → String → Option α
  | [], _ => none
  | (k', v) :: rest, k => if k' = k then some v else lookupA rest k

/-- Association-list assignment `d[k] = v`: replaces the value in place when
the key exists (CPython dicts keep the original insertion position), appends
otherwise. -/
def setAssoc {α : Type} : List (String × α) → String → α → List (String × α)
  | [], k, v => [(k, v)]
  | (k', v') :: rest, k, v =>
      if k' = k then (k, v) :: rest else (k', v') :: setAssoc rest k v

namespace Rules

/-- One entry of `lab_snapshot["sensors"]` as `decide` reads it: `t`, `h`,
`ts` always present, `avg_t`/`avg_h` optional (the code falls back from
`avg_t` to `t` via `dict.get`). -/
structure SensorEntry where
  t : ℚ
  h : ℚ
  ts : ℤ
  avg_t : Option ℚ
  avg_h : Option ℚ
deriving DecidableEq, Repr

/-- One entry of `lab_snapshot["actuators"]`: `{state, ts}`. -/
structure ActuatorEntry where
  state : String
  ts : ℤ
deriving DecidableEq, Repr

/-- The per-lab snapshot passed to `decide`. -/
structure LabSnapshot where
  sensors : List (String × SensorEntry)
  actuators : List (String × ActuatorEntry)
deriving DecidableEq, Repr

/-- The thresholds dict.  `t_high/t_low/h_high/h_low` are accessed by
subscript in the code, `off_delay_sec` and `hysteresis` via `.get` with
default 0; the claims always supply all six keys, so a total record. -/
structure Thresholds where
  t_high : ℚ
  t_low : ℚ
  h_high : ℚ
  h_low : ℚ
  off_delay_sec : ℚ
  hysteresis : ℚ
deriving DecidableEq, Repr

/-- The actuator index for one lab (`_actuator_index[lab_id]`), built by
`load_device_catalog`: `actuator_type -> [actuator_id]`. -/
structure ActuatorIndex where
  fan : List String
  dehumidifier : List String
  humidifier : List String
  heater : List String
deriving DecidableEq, Repr

/-- `_act_state`: current state of an actuator, `"OFF"` when unknown. -/
def act_state (s : LabSnapshot) (actuator_id : String) : String :=
  match lookupA s.actuators actuator_id with
  | some a => a.state
  | none => "OFF"

/-- `_act_timestamp`: last feedback timestamp of an actuator, `0` when
unknown. -/
def act_timestamp (s : LabSnapshot) (actuator_id : String) : ℤ :=
  match lookupA s.actuators actuator_id with
  | some a => a.ts
  | none => 0

/-- Python `max(sensors.values(), key=ts)`: the FIRST entry with maximal
`ts` in insertion order (later entries replace only on strictly greater
key). -/
def latestEntry : List (String × SensorEntry) → Option SensorEntry
  | [] => none
  | (_, e0) :: rest =>
      some (rest.foldl (fun acc p => if p.2.ts > acc.ts then p.2 else acc) e0)

/-- `_latest_sensor_reading`: `(t, h, ts)` of the newest sensor, preferring
`avg_t`/`avg_h` when present; `(0, 0, 0)` when the lab has no sensors. -/
def latest_sensor_reading (s : LabSnapshot) : ℚ × ℚ × ℤ :=
  match latestEntry s.sensors with
  | none => (0, 0, 0)
  | some e => (e.avg_t.getD e.t, e.avg_h.getD e.h, e.ts)

/-- A command `{actuator_id, action}` as produced by `decide`. -/
structure Cmd where
  actuator_id : String
  action : String
deriving DecidableEq, Repr

/-- The fan branch of `decide` for one fan actuator: heater priority OFF,
then force ON, then hysteresis OFF gated by the off-delay check
`last_ts and (time.time() - last_ts) >= off_delay` (`last_ts` is falsy when
0). -/
def fanDecision (s : LabSnapshot) (th : Thresholds) (t h now : ℚ)
    (actuator_id : String) : Option Cmd :=
  let cur := act_state s actuator_id
  if t < th.t_low ∧ cur = "ON" then
    some ⟨actuator_id, "OFF"⟩
  else if ((t > th.t_high ∨ h > th.h_high) ∧ ¬ t < th.t_low) ∧ cur ≠ "ON" then
    some ⟨actuator_id, "ON"⟩
  else if (t < th.t_high - th.hysteresis ∧ h < th.h_high - th.hysteresis) ∧ cur = "ON" then
    let last_ts := act_timestamp s actuator_id
    if last_ts ≠ 0 ∧ now - (last_ts : ℚ) ≥ th.off_delay_sec then
      some ⟨actuator_id, "OFF"⟩
    else none
  else none

/-- The dehumidifier branch of `decide` for one actuator. -/
def dehumidifierDecision (s : LabSnapshot) (th : Thresholds) (h : ℚ)
    (actuator_id : String) : Option Cmd :=
  let cur := act_state s actuator_id
  if h > th.h_high then
    (if cur ≠ "ON" then some ⟨actuator_id, "ON"⟩ else none)
  else if h < th.h_high - th.hysteresis then
    (if cur ≠ "OFF" then some ⟨actuator_id, "OFF"⟩ else none)
  else none

/-- The humidifier branch of `decide` for one actuator. -/
def humidifierDecision (s : LabSnapshot) (th : Thresholds) (h : ℚ)
    (actuator_id : String) : Option Cmd :=
  let cur := act_state s actuator_id
  if h < th.h_low then
    (if cur ≠ "ON" then some ⟨actuator_id, "ON"⟩ else none)
  else if h > th.h_low + th.hysteresis then
    (if cur ≠ "OFF" then some ⟨actuator_id, "OFF"⟩ else none)
  else none

/-- The heater branch of `decide` for one actuator. -/
def heaterDecision (s : LabSnapshot) (th : Thresholds) (t : ℚ)
    (actuator_id : String) : Option Cmd :=
  let cur := act_state s actuator_id
  if t < th.t_low then
    (if cur ≠ "ON" then some ⟨actuator_id, "ON"⟩ else none)
  else if t > th.t_low + th.hysteresis then
    (if cur ≠ "OFF" then some ⟨actuator_id, "OFF"⟩ else none)
  else none

/-- `rules.decide`.  The module-global `_actuator_index[lab_id]` is passed
explicitly as `idx`; the call `time.time()` is passed explicitly as `now`.
Sections run in source order: fan, dehumidifier, humidifier, heater. -/
def decide (s : LabSnapshot) (th : Thresholds) (idx : ActuatorIndex)
    (now : ℚ) : List Cmd :=
  if s.sensors = [] then []
  else
    let t := (latest_sensor_reading s).1
    let h := (latest_sensor_reading s).2.1
    idx.fan.filterMap (fanDecision s th t h now)
      ++ idx.dehumidifier.filterMap (dehumidifierDecision s th h)
      ++ idx.humidifier.filterMap (humidifierDecision s th h)
      ++ idx.heater.filterMap (heaterDecision s th t)

/-- The default thresholds from the spec's data model:
t_high=28, t_low=26.5, h_high=70, h_low=40, off_delay_sec=60, hysteresis=2. -/
def defaultThresholds : Thresholds :=
  { t_high := 28, t_low := 53 / 2, h_high := 70, h_low := 40
    off_delay_sec := 60, hysteresis := 2 }

end Rules

namespace StateMem

/-- A stored sensor record `{t, h, ts, avg_t, avg_h}` as written by
`update_sensor` (here the averages are always present). -/
structure StoredSensor where
  t : ℚ
  h : ℚ
  ts : ℤ
  avg_t : ℚ
  avg_h : ℚ
deriving DecidableEq, Repr

/-- One lab's runtime entry in `_state`: sensors, actuators,
`last_sensor_seen`, and the `alerts["sensor_offline"]` flag. -/
structure LabState where
  sensors : List (String × StoredSensor)
  actuators : List (String × Rules.ActuatorEntry)
  last_sensor_seen : ℤ
  sensor_offline : Bool
deriving DecidableEq, Repr

/-- The fresh lab entry created by `init_labs`. -/
def emptyLab : LabState :=
  { sensors := [], actuators := [], last_sensor_seen := 0, sensor_offline := false }

/-- The module state of `state_memory.py`: `_state` and `_history`
(`_history[lab_id][sensor_id]` is the list of up to 3 recent `(t, h)`
pairs). -/
structure Mem where
  state : List (String × LabState)
  history : List (String × List (String × List (ℚ × ℚ)))
deriving DecidableEq, Repr

/-- The empty store (module start-up). -/
def emptyMem : Mem := { state := [], history := [] }

/-- `update_sensor(lab_id, sensor_id, t, h, ts)`: creates the lab entry if
missing, appends `(t, h)` to the per-sensor history popping the front beyond
3 entries, recomputes the averages, stores the reading, sets
`last_sensor_seen := ts` and clears `sensor_offline`. -/
def update_sensor (lab_id sensor_id : String) (t h : ℚ) (ts : ℤ)
    (m : Mem) : Mem :=
  let lab := (lookupA m.state lab_id).getD emptyLab
  let labHist := (lookupA m.history lab_id).getD []
  let hist0 := (lookupA labHist sensor_id).getD []
  let hist1 := hist0 ++ [(t, h)]
  let hist := if hist1.length > 3 then hist1.tail else hist1
  let avg_t := (hist.map Prod.fst).sum / (hist.length : ℚ)
  let avg_h := (hist.map Prod.snd).sum / (hist.length : ℚ)
  let entry : StoredSensor := ⟨t, h, ts, avg_t, avg_h⟩
  let lab' : LabState :=
    { lab with
      sensors := setAssoc lab.sensors sensor_id entry
      last_sensor_seen := ts
      sensor_offline := false }
  { state := setAssoc m.state lab_id lab'
    history := setAssoc m.history lab_id (setAssoc labHist sensor_id hist) }

/-- `update_actuator_state(lab_id, actuator_id, state, ts)`. -/
def update_actuator_state (lab_id actuator_id : String) (state : String)
    (ts : ℤ) (m : Mem) : Mem :=
  let lab := (lookupA m.state lab_id).getD emptyLab
  let lab' : LabState :=
    { lab with actuators := setAssoc lab.actuators actuator_id ⟨state, ts⟩ }
  { m with state := setAssoc m.state lab_id lab' }

/-- One iteration of the loop inside `run_watchdog(publish_interval_sec)`:
for every lab, set `alerts["sensor_offline"]` to
`(now - last_sensor_seen) > 2 * publish_interval_sec`.  The loop body only
writes this flag; it deletes nothing and publishes nothing. -/
def watchdog_pass (publish_interval_sec now : ℤ) (st : List (String × LabState)) :
    List (String × LabState) :=
  st.map (fun p =>
    (p.1, { p.2 with
            sensor_offline :=
              if now - p.2.last_sensor_seen > 2 * publish_interval_sec
              then true else false }))

/-- One `update_sensor` call (its argument tuple). -/
structure Call where
  lab_id : String
  sensor_id : String
  t : ℚ
  h : ℚ
  ts : ℤ
deriving DecidableEq, Repr

/-- Replay a sequence of `update_sensor` calls against the empty store. -/
def applyCall (m : Mem) (c : Call) : Mem :=
  update_sensor c.lab_id c.sensor_id c.t c.h c.ts m

/-- The store after a sequence of `update_sensor` calls, oldest first. -/
def applyCalls (cs : List Call) : Mem :=
  cs.foldl applyCall emptyMem

/-- The `(t, h)` pairs fed to `update_sensor` for one `(lab, sensor)` key,
in call order. -/
def pairsOf (cs : List Call) (lab_id sensor_id : String) : List (ℚ × ℚ) :=
  (cs.filter (fun c => c.lab_id == lab_id && c.sensor_id == sensor_id)).map
    (fun c => (c.t, c.h))

/-- The `t` values fed to `update_sensor` for one `(lab, sensor)` key. -/
def tvalsOf (cs : List Call) (lab_id sensor_id : String) : List ℚ :=
  (pairsOf cs lab_id sensor_id).map Prod.fst

/-- The `h` values fed to `update_sensor` for one `(lab, sensor)` key. -/
def hvalsOf (cs : List Call) (lab_id sensor_id : String) : List ℚ :=
  (pairsOf cs lab_id sensor_id).map Prod.snd

/-- The last `n` elements of a list. -/
def lastN {α : Type} (n : Nat) (l : List α) : List α :=
  l.drop (l.length - n)

/-- The history ring for one `(lab, sensor)` key. -/
def histOf (m : Mem) (lab_id sensor_id : String) : List (ℚ × ℚ) :=
  (lookupA ((lookupA m.history lab_id).getD []) sensor_id).getD []

/-- The stored reading for one `(lab, sensor)` key, when present. -/
def sensorOf (m : Mem) (lab_id sensor_id : String) : Option StoredSensor :=
  match lookupA m.state lab_id with
  | none => none
  | some lab => lookupA lab.sensors sensor_id

/-- The history-ring update performed by `update_sensor`: append the new
pair, pop the front when the ring exceeds 3 entries. -/
def trimPush (l : List (ℚ × ℚ)) (p : ℚ × ℚ) : List (ℚ × ℚ) :=
  let l1 := l ++ [p]
  if l1.length > 3 then l1.tail else l1

/-- The stored record `update_sensor lab_id sensor_id t h ts` writes for
that sensor (same lets as in `update_sensor`, for characterization). -/
def newEntry (lab_id sensor_id : String) (t h : ℚ) (ts : ℤ) (m : Mem) :
    StoredSensor :=
  let labHist := (lookupA m.history lab_id).getD []
  let hist0 := (lookupA labHist sensor_id).getD []
  let hist1 := hist0 ++ [(t, h)]
  let hist := if hist1.length > 3 then hist1.tail else hist1
  ⟨t, h, ts, (hist.map Prod.fst).sum / (hist.length : ℚ),
    (hist.map Prod.snd).sum / (hist.length : ℚ)⟩

/-- The claimed State Memory invariant: every stored sensor reading's `ts`
is at most the lab's `last_sensor_seen`. -/
def lastSeenInvariant (m : Mem) : Prop :=
  ∀ p ∈ m.state, ∀ q ∈ p.2.sensors, q.2.ts ≤ p.2.last_sensor_seen

instance (m : Mem) : Decidable (lastSeenInvariant m) := by
  unfold lastSeenInvariant; infer_instance

end StateMem

/-- Python `s.split(sep)` for a one-character separator, by structural
recursion over the characters (`"".split` gives `[""]`). -/
def splitOnChar (sep : Char) : List Char → List (List Char)
  | [] => [[]]
  | x :: xs =>
      match splitOnChar sep xs with
      | [] => [[x]]
      | g :: gs => if x = sep then [] :: g :: gs else (x :: g) :: gs

/-- A topic string split into its `/`-separated levels. -/
def splitLevels (s : String) : List String :=
  (splitOnChar '/' s.toList).map String.mk

namespace Mqtt

/-- MQTT topic-filter matching level by level (`+` matches one level, `#`
the whole rest, also an empty rest), the semantics of
`paho.mqtt.topic_matches_sub` used by `MqttClient._on_message`. -/
def matchLevels : List String → List String → Bool
  | "#" :: _, _ => true
  | [], [] => true
  | "+" :: ps, _ :: ts => matchLevels ps ts
  | p :: ps, t :: ts => p == t && matchLevels ps ts
  | _, _ => false

/-- `mqtt.topic_matches_sub(pattern, topic)`. -/
def topic_matches_sub (pattern topic : String) : Bool :=
  matchLevels (splitLevels pattern) (splitLevels topic)

/-- One entry of `MqttClient._subs`.  The callback itself is abstracted to
the one bit `_on_message` can observe: whether it raises on this message
(the `try`/`except` around the call swallows the exception either way). -/
structure Subscription where
  topic : String
  raises : Bool
deriving DecidableEq, Repr

/-- An inbound bus message: its topic and its decoded JSON payload, `none`
when `json.loads` raises (the payload bytes are not valid JSON). -/
structure InMsg where
  topic : String
  payload : Option Unit
deriving DecidableEq, Repr

/-- What one `_on_message` call did: which subscription callbacks ran (by
index in `_subs`), the `_dropped_messages` counter afterwards, and whether
an exception escaped the handler. -/
structure OnMessageResult where
  invoked : List Nat
  dropped : Nat
  terminated : Bool
deriving DecidableEq, Repr

/-- `MqttClient._on_message`: collect the subscriptions matching the topic;
return early when none match; on a JSON decode error increment
`_dropped_messages` and return; otherwise run every matching callback, each
inside `try`/`except`, so a raising callback neither stops the loop nor
escapes the handler. -/
def on_message (subs : List Subscription) (dropped : Nat) (msg : InMsg) :
    OnMessageResult :=
  let callbacks := subs.enum.filter (fun p => topic_matches_sub p.2.topic msg.topic)
  if callbacks = [] then { invoked := [], dropped := dropped, terminated := false }
  else
    match msg.payload with
    | none => { invoked := [], dropped := dropped + 1, terminated := false }
    | some _ =>
        { invoked := callbacks.map Prod.fst, dropped := dropped, terminated := false }

end Mqtt

namespace Bridge

/-- A JSON value in a `t`/`h` slot, as far as Python `float(x)` is
concerned: either something `float` converts (a number, or a numeric
string), carrying the converted value, or something that makes `float`
raise `TypeError`/`ValueError`. -/
inductive JNum where
  | num (q : ℚ)
  | nonNumeric
deriving DecidableEq, Repr

/-- The decoded payload of a sensor state message, fields optional. -/
structure SensorPayload where
  t : Option JNum
  h : Option JNum
  ts : Option ℤ
deriving DecidableEq, Repr

/-- The regex `^labs/([^/]+)/sensors/([^/]+)/state$` (`SENSOR_RE`) applied
to a topic: the `(lab_id, sensor_id)` groups on a match. -/
def parseTopic (topic : String) : Option (String × String) :=
  match splitLevels topic with
  | ["labs", lab_id, "sensors", sensor_id, "state"] =>
      if lab_id ≠ "" ∧ sensor_id ≠ "" then some (lab_id, sensor_id) else none
  | _ => none

/-- `float(payload.get(k))` guarded by `try`/`except`: the numeric value,
or 0.0 when the field is missing or `float` raises. -/
def floatOrZero : Option JNum → ℚ
  | some (JNum.num q) => q
  | some JNum.nonNumeric => 0
  | none => 0

/-- `sensor_bridge.on_sensor_message(topic, payload)` with `time.time()`
passed explicitly as `now`.  Returns the argument tuple of the
`state_memory.update_sensor` call it makes, or `none` when the topic does
not match `SENSOR_RE` and the handler returns without calling anything.
`int(payload.get("ts") or time.time())` uses the payload `ts` only when it
is truthy (present and nonzero). -/
def on_sensor_message (topic : String) (payload : SensorPayload) (now : ℤ) :
    Option (String × String × ℚ × ℚ × ℤ) :=
  match parseTopic topic with
  | none => none
  | some (lab_id, sensor_id) =>
      let temperature := floatOrZero payload.t
      let humidity := floatOrZero payload.h
      let timestamp : ℤ :=
        match payload.ts with
        | some v => if v ≠ 0 then v else now
        | none => now
      some (lab_id, sensor_id, temperature, humidity, timestamp)

end Bridge

/-! ### Concrete fixtures and spec-side field semantics -/

/-- Scenario 1 of the spec: lab with sensor `s1` (t=25.0, h=75, ts=1000),
fan `f1` ON since ts=900, heater `h1` OFF. -/
def scenario1Snap : Rules.LabSnapshot :=
  { sensors := [("s1", ⟨25, 75, 1000, some 25, some 75⟩)]
    actuators := [("f1", ⟨"ON", 900⟩), ("h1", ⟨"OFF", 0⟩)] }

/-- Scenario 1 actuator index: one fan `f1`, one heater `h1`. -/
def scenario1Idx : Rules.ActuatorIndex := ⟨["f1"], [], [], ["h1"]⟩

/-- Thresholds with a low `t_low` so that the hysteresis fan-OFF region
does not overlap `heat_needed`. -/
def clockTh : Rules.Thresholds :=
  { t_high := 28, t_low := 10, h_high := 70, h_low := 40
    off_delay_sec := 60, hysteresis := 2 }

/-- Snapshot with the fan ON since ts=100 and a comfortable reading
(t=20, h=50): the only live rule is the off-delay gated fan OFF. -/
def clockSnap : Rules.LabSnapshot :=
  { sensors := [("s1", ⟨20, 50, 1000, some 20, some 50⟩)]
    actuators := [("f1", ⟨"ON", 100⟩)] }

/-- Index with a single fan `f1`. -/
def fanOnlyIdx : Rules.ActuatorIndex := ⟨["f1"], [], [], []⟩

/-- Like `clockSnap` but the fan's feedback timestamp is 0. -/
def zeroTsSnap : Rules.LabSnapshot :=
  { sensors := [("s1", ⟨20, 50, 1000, some 20, some 50⟩)]
    actuators := [("f1", ⟨"ON", 0⟩)] }

/-- The subscriptions of the C8 scenario: the sensor-state wildcard. -/
def c8Subs : List Mqtt.Subscription := [⟨"labs/+/sensors/+/state", false⟩]

/-- A malformed (non-JSON) message on a topic no subscription matches. -/
def c8NoMatchMsg : Mqtt.InMsg := ⟨"other/topic", none⟩

/-- A malformed (non-JSON) message on a matching topic. -/
def c8MatchMsg : Mqtt.InMsg := ⟨"labs/l1/sensors/s1/state", none⟩

/-- The field semantics the spec describes for `t` and `h`: the payload
value when numeric, 0.0 when missing or non-numeric. -/
def specNum : Option Bridge.JNum → ℚ
  | some (Bridge.JNum.num q) => q
  | _ => 0

/-- The timestamp the bridge actually forwards: the payload `ts` when
present and nonzero, the server clock otherwise (a zero `ts` is falsy in
`payload.get("ts") or time.time()`). -/
def specTs (now : ℤ) : Option ℤ → ℤ
  | some v => if v = 0 then now else v
  | none => now

/-- A sensor state topic for lab `l1`, sensor `s1`. -/
def c9Topic : String := "labs/l1/sensors/s1/state"

/-- A payload carrying numeric t and h and the explicit timestamp 0. -/
def c9Payload : Bridge.SensorPayload :=
  ⟨some (Bridge.JNum.num 25), some (Bridge.JNum.num 60), some 0⟩

/-- The two-update sequence falsifying the `last_sensor_seen` invariant:
sensor `s1` reports with ts=100, then sensor `s2` reports with ts=50. -/
def c2Calls : List StateMem.Call :=
  [⟨"lab1", "s1", 20, 50, 100⟩, ⟨"lab1", "s2", 20, 50, 50⟩]

/-- A one-update store used to instantiate the amended C2 preservation. -/
def c2Mem : StateMem.Mem := StateMem.applyCalls [⟨"lab1", "s1", 20, 50, 100⟩]

/-- Four updates for one sensor, t values 1..4, h values 10..40. -/
def c6Calls : List StateMem.Call :=
  [⟨"l", "s", 1, 10, 1⟩, ⟨"l", "s", 2, 20, 2⟩, ⟨"l", "s", 3, 30, 3⟩, ⟨"l", "s", 4, 40, 4⟩]

/-- The record stored for sensor `s` after `c6Calls`. -/
def c6Entry : StateMem.StoredSensor :=
  (StateMem.sensorOf (StateMem.applyCalls c6Calls) "l" "s").getD ⟨0, 0, 0, 0, 0⟩

/-! ### Association-list lemmas -/

theorem lookupA_setAssoc_same {α : Type} (l : List (String × α)) (k : String) (v : α) :
    lookupA (setAssoc l k v) k = some v := by
  induction l with
  | nil => simp [setAssoc, lookupA]
  | cons p rest ih =>
      by_cases h : p.1 = k
      · simp [setAssoc, h, lookupA]
      · simp [setAssoc, h, lookupA, ih]

theorem lookupA_setAssoc_other {α : Type} (l : List (String × α)) (k k' : String)
    (v : α) (h : k' ≠ k) : lookupA (setAssoc l k v) k' = lookupA l k' := by
  have hk : ¬ k = k' := fun hh => h hh.symm
  induction l with
  | nil => simp [setAssoc, lookupA, hk]
  | cons p rest ih =>
      by_cases hp : p.1 = k
      · subst hp
        simp [setAssoc, lookupA, hk]
      · by_cases hp' : p.1 = k'
        · simp [setAssoc, hp, lookupA, hp', h]
        · simp [setAssoc, hp, lookupA, hp', ih]

theorem mem_setAssoc {α : Type} {l : List (String × α)} {k : String} {v : α}
    {p : String × α} (h : p ∈ setAssoc l k v) : p = (k, v) ∨ p ∈ l := by
  induction l with
  | nil => simpa [setAssoc] using h
  | cons q rest ih =>
      by_cases hq : q.1 = k
      · simp [setAssoc, hq] at h
        rcases h with h | h
        · exact Or.inl h
        · exact Or.inr (List.mem_cons_of_mem _ h)
      · simp [setAssoc, hq] at h
        rcases h with h | h
        · exact Or.inr (by simp [h])
        · rcases ih h with h' | h'
          · exact Or.inl h'
          · exact Or.inr (List.mem_cons_of_mem _ h')

theorem lookupA_mem {α : Type} {l : List (String × α)} {k : String} {v : α}
    (h : lookupA l k = some v) : (k, v) ∈ l := by
  induction l with
  | nil => simp [lookupA] at h
  | cons q rest ih =>
      by_cases hq : q.1 = k
      · simp [lookupA, hq] at h
        subst hq
        simp [← h]
      · simp [lookupA, hq] at h
        exact List.mem_cons_of_mem _ (ih h)

theorem lookupA_map_value {α β : Type} (f : α → β) (l : List (String × α)) (k : String) :
    lookupA (l.map (fun p => (p.1, f p.2))) k = (lookupA l k).map f := by
  induction l with
  | nil => simp [lookupA]
  | cons q rest ih =>
      by_cases hq : q.1 = k
      · simp [lookupA, hq]
      · simp [lookupA, hq, ih]

/-! ### Rules Engine lemmas -/

namespace Rules

/-- Every command a decision branch emits names the actuator it was asked
about, and its action differs from that actuator's current state. -/
theorem fanDecision_changes {s : LabSnapshot} {th : Thresholds} {t h now : ℚ}
    {a : String} {c : Cmd} (hc : fanDecision s th t h now a = some c) :
    c.actuator_id = a ∧ c.action ≠ act_state s a := by
  simp only [fanDecision] at hc
  split_ifs at hc with h1 h2 h3 h4
  · injection hc with hc; subst hc
    refine ⟨rfl, ?_⟩
    rw [h1.2]
    exact (by decide : ("OFF" : String) ≠ "ON")
  · injection hc with hc; subst hc
    exact ⟨rfl, fun hh => h2.2 hh.symm⟩
  · injection hc with hc; subst hc
    refine ⟨rfl, ?_⟩
    rw [h3.2]
    exact (by decide : ("OFF" : String) ≠ "ON")

theorem dehumidifierDecision_changes {s : LabSnapshot} {th : Thresholds} {h : ℚ}
    {a : String} {c : Cmd} (hc : dehumidifierDecision s th h a = some c) :
    c.actuator_id = a ∧ c.action ≠ act_state s a := by
  simp only [dehumidifierDecision] at hc
  split_ifs at hc with h1 h2 h3 h4
  · injection hc with hc; subst hc
    exact ⟨rfl, fun hh => h2 hh.symm⟩
  · injection hc with hc; subst hc
    exact ⟨rfl, fun hh => h4 hh.symm⟩

theorem humidifierDecision_changes {s : LabSnapshot} {th : Thresholds} {h : ℚ}
    {a : String} {c : Cmd} (hc : humidifierDecision s th h a = some c) :
    c.actuator_id = a ∧ c.action ≠ act_state s a := by
  simp only [humidifierDecision] at hc
  split_ifs at hc with h1 h2 h3 h4
  · injection hc with hc; subst hc
    exact ⟨rfl, fun hh => h2 hh.symm⟩
  · injection hc with hc; subst hc
    exact ⟨rfl, fun hh => h4 hh.symm⟩

theorem heaterDecision_changes {s : LabSnapshot} {th : Thresholds} {t : ℚ}
    {a : String} {c : Cmd} (hc : heaterDecision s th t a = some c) :
    c.actuator_id = a ∧ c.action ≠ act_state s a := by
  simp only [heaterDecision] at hc
  split_ifs at hc with h1 h2 h3 h4
  · injection hc with hc; subst hc
    exact ⟨rfl, fun hh => h2 hh.symm⟩
  · injection hc with hc; subst hc
    exact ⟨rfl, fun hh => h4 hh.symm⟩

/-- Membership in `decide`'s output, section by section. -/
theorem mem_decide_iff (s : LabSnapshot) (th : Thresholds) (idx : ActuatorIndex)
    (now : ℚ) (c : Cmd) :
    c ∈ decide s th idx now ↔
      s.sensors ≠ [] ∧
      ((∃ a ∈ idx.fan,
          fanDecision s th (latest_sensor_reading s).1 (latest_sensor_reading s).2.1 now a = some c) ∨
       (∃ a ∈ idx.dehumidifier,
          dehumidifierDecision s th (latest_sensor_reading s).2.1 a = some c) ∨
       (∃ a ∈ idx.humidifier,
          humidifierDecision s th (latest_sensor_reading s).2.1 a = some c) ∨
       (∃ a ∈ idx.heater,
          heaterDecision s th (latest_sensor_reading s).1 a = some c)) := by
  by_cases hs : s.sensors = [] <;>
    simp [decide, hs, List.mem_filterMap, List.mem_append]

/-- A fan that is ON while heating is not needed gets no command unless the
inner off-delay test passes. -/
theorem fanDecision_none {s : LabSnapshot} {th : Thresholds} {t h now : ℚ}
    {a : String} (hcur : act_state s a = "ON") (hheat : ¬ t < th.t_low)
    (hdelay : ¬ (act_timestamp s a ≠ 0 ∧ now - (act_timestamp s a : ℚ) ≥ th.off_delay_sec)) :
    fanDecision s th t h now a = none := by
  simp only [fanDecision]
  rw [if_neg (fun hco => hheat hco.1), if_neg (fun hco => hco.2 hcur)]
  by_cases h3 : (t < th.t_high - th.hysteresis ∧ h < th.h_high - th.hysteresis) ∧
      act_state s a = "ON"
  · rw [if_pos h3, if_neg hdelay]
  · rw [if_neg h3]

end Rules

/-! ### State Memory lemmas -/

namespace StateMem

/-- Characterization of the `_state` side of `update_sensor`. -/
theorem update_sensor_state (lab_id sensor_id : String) (t h : ℚ) (ts : ℤ)
    (m : Mem) :
    (update_sensor lab_id sensor_id t h ts m).state =
      setAssoc m.state lab_id
        { (lookupA m.state lab_id).getD emptyLab with
          sensors := setAssoc ((lookupA m.state lab_id).getD emptyLab).sensors
            sensor_id (newEntry lab_id sensor_id t h ts m)
          last_sensor_seen := ts
          sensor_offline := false } := rfl

/-- Characterization of the `_history` side of `update_sensor`. -/
theorem update_sensor_history (lab_id sensor_id : String) (t h : ℚ) (ts : ℤ)
    (m : Mem) :
    (update_sensor lab_id sensor_id t h ts m).history =
      setAssoc m.history lab_id
        (setAssoc ((lookupA m.history lab_id).getD []) sensor_id
          (trimPush (histOf m lab_id sensor_id) (t, h))) := rfl

theorem histOf_update_same (lab_id sensor_id : String) (t h : ℚ) (ts : ℤ)
    (m : Mem) :
    histOf (update_sensor lab_id sensor_id t h ts m) lab_id sensor_id =
      trimPush (histOf m lab_id sensor_id) (t, h) := by
  simp [histOf, update_sensor_history, lookupA_setAssoc_same]

theorem histOf_update_other (lab_id sensor_id lab' sensor' : String)
    (t h : ℚ) (ts : ℤ) (m : Mem)
    (hne : ¬ (lab' = lab_id ∧ sensor' = sensor_id)) :
    histOf (update_sensor lab' sensor' t h ts m) lab_id sensor_id =
      histOf m lab_id sensor_id := by
  by_cases hl : lab' = lab_id
  · subst hl
    have hs : sensor_id ≠ sensor' := fun hh => hne ⟨rfl, hh.symm⟩
    simp [histOf, update_sensor_history, lookupA_setAssoc_same,
      lookupA_setAssoc_other _ _ _ _ hs]
  · have hl' : lab_id ≠ lab' := fun hh => hl hh.symm
    simp [histOf, update_sensor_history, lookupA_setAssoc_other _ _ _ _ hl']

theorem sensorOf_update_same (lab_id sensor_id : String) (t h : ℚ) (ts : ℤ)
    (m : Mem) :
    sensorOf (update_sensor lab_id sensor_id t h ts m) lab_id sensor_id =
      some (newEntry lab_id sensor_id t h ts m) := by
  simp [sensorOf, update_sensor_state, lookupA_setAssoc_same]

theorem sensorOf_update_other (lab_id sensor_id lab' sensor' : String)
    (t h : ℚ) (ts : ℤ) (m : Mem)
    (hne : ¬ (lab' = lab_id ∧ sensor' = sensor_id)) :
    sensorOf (update_sensor lab' sensor' t h ts m) lab_id sensor_id =
      sensorOf m lab_id sensor_id := by
  by_cases hl : lab' = lab_id
  · subst hl
    have hs : sensor_id ≠ sensor' := fun hh => hne ⟨rfl, hh.symm⟩
    cases hlook : lookupA m.state lab' with
    | none =>
        simp [sensorOf, update_sensor_state, lookupA_setAssoc_same, hlook,
          emptyLab, lookupA_setAssoc_other _ _ _ _ hs, lookupA]
        exact fun hh => hs hh.symm
    | some ls =>
        simp [sensorOf, update_sensor_state, lookupA_setAssoc_same, hlook,
          lookupA_setAssoc_other _ _ _ _ hs]
  · have hl' : lab_id ≠ lab' := fun hh => hl hh.symm
    simp [sensorOf, update_sensor_state, lookupA_setAssoc_other _ _ _ _ hl']

theorem applyCalls_append_one (cs : List Call) (c : Call) :
    applyCalls (cs ++ [c]) = applyCall (applyCalls cs) c := by
  simp [applyCalls, List.foldl_append]

theorem pairsOf_append_one (cs : List Call) (c : Call) (lab_id sensor_id : String) :
    pairsOf (cs ++ [c]) lab_id sensor_id =
      pairsOf cs lab_id sensor_id ++
        (if c.lab_id = lab_id ∧ c.sensor_id = sensor_id
         then [(c.t, c.h)] else []) := by
  by_cases h : c.lab_id = lab_id ∧ c.sensor_id = sensor_id
  · simp [pairsOf, List.filter_append, List.filter_cons, h, h.1, h.2]
  · simp only [pairsOf, List.filter_append, List.filter_cons, if_neg h]
    rw [if_neg]
    · simp
    · simp only [Bool.and_eq_true, beq_iff_eq]
      exact h

theorem lastN_map {α β : Type} (f : α → β) (n : Nat) (l : List α) :
    (lastN n l).map f = lastN n (l.map f) := by
  simp [lastN, List.map_drop, List.length_map]

theorem trimPush_lastN (P : List (ℚ × ℚ)) (p : ℚ × ℚ) :
    trimPush (lastN 3 P) p = lastN 3 (P ++ [p]) := by
  by_cases hlen : 3 ≤ P.length
  · have hd3 : (P.drop (P.length - 3)).length = 3 := by
      rw [List.length_drop]; omega
    simp only [trimPush, lastN]
    rw [if_pos (by simp only [List.length_append, List.length_drop,
      List.length_cons, List.length_nil]; omega)]
    rw [← List.drop_one,
      List.drop_append_of_le_length (by rw [List.length_drop]; omega),
      List.drop_drop,
      List.drop_append_of_le_length (by simp only [List.length_append,
        List.length_cons, List.length_nil]; omega)]
    have hidx : P.length - 3 + 1 = P.length + 1 - 3 := by omega
    simp only [List.length_append, List.length_cons, List.length_nil, hidx]
  · have h0 : P.length - 3 = 0 := by omega
    simp only [trimPush, lastN, h0, List.drop_zero]
    rw [if_neg (by simp only [List.length_append, List.length_cons,
      List.length_nil]; omega)]
    have h1 : P.length + 1 - 3 = 0 := by omega
    simp only [List.length_append, List.length_cons, List.length_nil, h1,
      List.drop_zero]

theorem histOf_applyCalls (cs : List Call) (lab_id sensor_id : String) :
    histOf (applyCalls cs) lab_id sensor_id =
      lastN 3 (pairsOf cs lab_id sensor_id) := by
  induction cs using List.reverseRecOn with
  | nil => rfl
  | append_singleton cs c ih =>
      rw [applyCalls_append_one, pairsOf_append_one]
      by_cases h : c.lab_id = lab_id ∧ c.sensor_id = sensor_id
      · obtain ⟨h1, h2⟩ := h
        rw [if_pos ⟨h1, h2⟩]
        simp only [applyCall]
        rw [h1, h2, histOf_update_same, ih, trimPush_lastN]
      · rw [if_neg h, List.append_nil]
        simp only [applyCall]
        rw [histOf_update_other _ _ _ _ _ _ _ _ h, ih]

end StateMem

/-! ### Claims about the Rules Engine -/

/-- C1 (counterexample): `decide` is not independent of the wall clock.
With the same snapshot, thresholds and actuator index, the call made when
`time.time()` reads 120 returns no command (off-delay not yet elapsed for
the fan that is ON in a comfortable reading), while the call at 200
returns the fan OFF command. -/
theorem C1_counterexample :
    Rules.decide clockSnap clockTh fanOnlyIdx 120 ≠
      Rules.decide clockSnap clockTh fanOnlyIdx 200 := by
  norm_num +decide [Rules.decide, clockSnap, clockTh, fanOnlyIdx, Rules.fanDecision,
    Rules.act_state, Rules.act_timestamp, Rules.latest_sensor_reading, Rules.latestEntry,
    lookupA, List.filterMap_cons]

/-- C1 (amended): `decide` is a deterministic function of (snapshot,
thresholds, actuator index, current wall-clock time), and the clock enters
only through the fan off-delay check: for a lab whose index lists no fan,
the output is the same at every clock reading. -/
theorem C1_amended_clock_only_in_fan_path (s : Rules.LabSnapshot)
    (th : Rules.Thresholds) (idx : Rules.ActuatorIndex) (now now' : ℚ)
    (hfan : idx.fan = []) :
    Rules.decide s th idx now = Rules.decide s th idx now' := by
  by_cases hs : s.sensors = [] <;> simp [Rules.decide, hs, hfan]

/-- Witness for C1 (amended) at a fan-free index. -/
theorem C1_amended_witness :
    Rules.decide clockSnap clockTh ⟨[], [], [], ["h1"]⟩ 120 =
      Rules.decide clockSnap clockTh ⟨[], [], [], ["h1"]⟩ 200 :=
  C1_amended_clock_only_in_fan_path clockSnap clockTh ⟨[], [], [], ["h1"]⟩ 120 200 rfl

/-- C3: heater priority.  Whenever the selected reading satisfies
`t < t_low` and a fan of the lab is currently ON, `decide` emits OFF for
that fan (no off-delay condition), whatever `h` is; and on the spec's
scenario 1 (default thresholds, t=25.0, h=75, fan ON since 900, heater
OFF) the output is exactly fan OFF followed by heater ON. -/
theorem C3_heater_priority :
    (∀ (s : Rules.LabSnapshot) (th : Rules.Thresholds) (idx : Rules.ActuatorIndex)
        (now : ℚ) (a : String),
        a ∈ idx.fan → s.sensors ≠ [] →
        (Rules.latest_sensor_reading s).1 < th.t_low →
        Rules.act_state s a = "ON" →
        Rules.Cmd.mk a "OFF" ∈ Rules.decide s th idx now) ∧
    Rules.decide scenario1Snap Rules.defaultThresholds scenario1Idx 1000 =
      [Rules.Cmd.mk "f1" "OFF", Rules.Cmd.mk "h1" "ON"] := by
  constructor
  · intro s th idx now a ha hs ht hcur
    rw [Rules.mem_decide_iff]
    refine ⟨hs, Or.inl ⟨a, ha, ?_⟩⟩
    simp only [Rules.fanDecision]
    rw [if_pos ⟨ht, hcur⟩]
  · norm_num +decide [Rules.decide, scenario1Snap, scenario1Idx, Rules.defaultThresholds,
      Rules.fanDecision, Rules.heaterDecision, Rules.act_state, Rules.act_timestamp,
      Rules.latest_sensor_reading, Rules.latestEntry, lookupA, List.filterMap_cons]

/-- Witness for C3: the universal part applied to scenario 1. -/
theorem C3_heater_priority_witness :
    Rules.Cmd.mk "f1" "OFF" ∈
      Rules.decide scenario1Snap Rules.defaultThresholds scenario1Idx 1000 :=
  C3_heater_priority.1 scenario1Snap Rules.defaultThresholds scenario1Idx 1000 "f1"
    (by decide) (by decide)
    (by norm_num [Rules.defaultThresholds,
          show (Rules.latest_sensor_reading scenario1Snap).1 = (25 : ℚ) from rfl])
    (by decide)

/-- C4: the rules-driven fan OFF is suppressed while the off-delay has not
elapsed.  If a fan is ON, heating is not needed, the hysteresis OFF
condition holds, and `now - last_ts < off_delay_sec`, then `decide` emits
no OFF for that fan. -/
theorem C4_fan_off_delay_suppressed (s : Rules.LabSnapshot) (th : Rules.Thresholds)
    (idx : Rules.ActuatorIndex) (now : ℚ) (a : String)
    (hfan : a ∈ idx.fan)
    (hnd : a ∉ idx.dehumidifier) (hnh : a ∉ idx.humidifier) (hnt : a ∉ idx.heater)
    (hcur : Rules.act_state s a = "ON")
    (hheat : ¬ (Rules.latest_sensor_reading s).1 < th.t_low)
    (ht : (Rules.latest_sensor_reading s).1 < th.t_high - th.hysteresis)
    (hh : (Rules.latest_sensor_reading s).2.1 < th.h_high - th.hysteresis)
    (hdelay : now - (Rules.act_timestamp s a : ℚ) < th.off_delay_sec) :
    Rules.Cmd.mk a "OFF" ∉ Rules.decide s th idx now := by
  intro hc
  rw [Rules.mem_decide_iff] at hc
  rcases hc.2 with ⟨b, hb, hd⟩ | ⟨b, hb, hd⟩ | ⟨b, hb, hd⟩ | ⟨b, hb, hd⟩
  · have hid : a = b := (Rules.fanDecision_changes hd).1
    rw [← hid] at hd
    rw [Rules.fanDecision_none hcur hheat
      (fun hco => absurd hco.2 (not_le.mpr hdelay))] at hd
    cases hd
  · have hid : a = b := (Rules.dehumidifierDecision_changes hd).1
    rw [← hid] at hb
    exact hnd hb
  · have hid : a = b := (Rules.humidifierDecision_changes hd).1
    rw [← hid] at hb
    exact hnh hb
  · have hid : a = b := (Rules.heaterDecision_changes hd).1
    rw [← hid] at hb
    exact hnt hb

/-- Witness for C4: at clock 120 the fan last seen at ts=100 with
off_delay 60 is not commanded OFF. -/
theorem C4_fan_off_delay_suppressed_witness :
    Rules.Cmd.mk "f1" "OFF" ∉ Rules.decide clockSnap clockTh fanOnlyIdx 120 :=
  C4_fan_off_delay_suppressed clockSnap clockTh fanOnlyIdx 120 "f1"
    (by decide) (by decide) (by decide) (by decide) (by decide)
    (by norm_num [clockTh,
          show (Rules.latest_sensor_reading clockSnap).1 = (20 : ℚ) from rfl])
    (by norm_num [clockTh,
          show (Rules.latest_sensor_reading clockSnap).1 = (20 : ℚ) from rfl])
    (by norm_num [clockTh,
          show (Rules.latest_sensor_reading clockSnap).2.1 = (50 : ℚ) from rfl])
    (by norm_num [clockTh,
          show Rules.act_timestamp clockSnap "f1" = (100 : ℤ) from rfl])

/-- C5: every command `decide` emits changes the commanded actuator's
state: its action differs from the actuator's current state in the
snapshot (OFF when unknown).  The fan force-off under heat_needed is no
exception since it fires only when the fan reports ON. -/
theorem C5_commands_change_state (s : Rules.LabSnapshot) (th : Rules.Thresholds)
    (idx : Rules.ActuatorIndex) (now : ℚ) (c : Rules.Cmd)
    (hc : c ∈ Rules.decide s th idx now) :
    c.action ≠ Rules.act_state s c.actuator_id := by
  rw [Rules.mem_decide_iff] at hc
  rcases hc.2 with ⟨b, _, hd⟩ | ⟨b, _, hd⟩ | ⟨b, _, hd⟩ | ⟨b, _, hd⟩
  · obtain ⟨hid, hne⟩ := Rules.fanDecision_changes hd
    rw [hid]; exact hne
  · obtain ⟨hid, hne⟩ := Rules.dehumidifierDecision_changes hd
    rw [hid]; exact hne
  · obtain ⟨hid, hne⟩ := Rules.humidifierDecision_changes hd
    rw [hid]; exact hne
  · obtain ⟨hid, hne⟩ := Rules.heaterDecision_changes hd
    rw [hid]; exact hne

/-- Witness for C5 on scenario 1's fan OFF command. -/
theorem C5_commands_change_state_witness :
    (Rules.Cmd.mk "f1" "OFF").action ≠
      Rules.act_state scenario1Snap (Rules.Cmd.mk "f1" "OFF").actuator_id :=
  C5_commands_change_state scenario1Snap Rules.defaultThresholds scenario1Idx 1000
    (Rules.Cmd.mk "f1" "OFF")
    (by norm_num +decide [Rules.decide, scenario1Snap, scenario1Idx,
      Rules.defaultThresholds, Rules.fanDecision, Rules.heaterDecision, Rules.act_state,
      Rules.act_timestamp, Rules.latest_sensor_reading, Rules.latestEntry, lookupA,
      List.filterMap_cons])

/-- C10: a zero feedback timestamp suppresses the rules-driven fan OFF.
If a fan is ON with `ts = 0`, heating is not needed, then even when the
hysteresis OFF condition holds and any off-delay has elapsed since 0,
`decide` emits no OFF for that fan (`last_ts` is falsy in
`last_ts and (time.time() - last_ts) >= off_delay`). -/
theorem C10_zero_feedback_ts_suppresses_off (s : Rules.LabSnapshot)
    (th : Rules.Thresholds) (idx : Rules.ActuatorIndex) (now : ℚ) (a : String)
    (hfan : a ∈ idx.fan)
    (hnd : a ∉ idx.dehumidifier) (hnh : a ∉ idx.humidifier) (hnt : a ∉ idx.heater)
    (hcur : Rules.act_state s a = "ON")
    (hts : Rules.act_timestamp s a = 0)
    (hheat : ¬ (Rules.latest_sensor_reading s).1 < th.t_low)
    (ht : (Rules.latest_sensor_reading s).1 < th.t_high - th.hysteresis)
    (hh : (Rules.latest_sensor_reading s).2.1 < th.h_high - th.hysteresis)
    (helapsed : th.off_delay_sec ≤ now - (Rules.act_timestamp s a : ℚ)) :
    Rules.Cmd.mk a "OFF" ∉ Rules.decide s th idx now := by
  intro hc
  rw [Rules.mem_decide_iff] at hc
  rcases hc.2 with ⟨b, hb, hd⟩ | ⟨b, hb, hd⟩ | ⟨b, hb, hd⟩ | ⟨b, hb, hd⟩
  · have hid : a = b := (Rules.fanDecision_changes hd).1
    rw [← hid] at hd
    rw [Rules.fanDecision_none hcur hheat (fun hco => hco.1 hts)] at hd
    cases hd
  · have hid : a = b := (Rules.dehumidifierDecision_changes hd).1
    rw [← hid] at hb
    exact hnd hb
  · have hid : a = b := (Rules.humidifierDecision_changes hd).1
    rw [← hid] at hb
    exact hnh hb
  · have hid : a = b := (Rules.heaterDecision_changes hd).1
    rw [← hid] at hb
    exact hnt hb

/-- Witness for C10: fan ON with feedback ts 0, comfortable reading, clock
far beyond the off-delay, yet no OFF. -/
theorem C10_zero_feedback_ts_suppresses_off_witness :
    Rules.Cmd.mk "f1" "OFF" ∉ Rules.decide zeroTsSnap clockTh fanOnlyIdx 1000000 :=
  C10_zero_feedback_ts_suppresses_off zeroTsSnap clockTh fanOnlyIdx 1000000 "f1"
    (by decide) (by decide) (by decide) (by decide) (by decide) (by decide)
    (by norm_num [clockTh,
          show (Rules.latest_sensor_reading zeroTsSnap).1 = (20 : ℚ) from rfl])
    (by norm_num [clockTh,
          show (Rules.latest_sensor_reading zeroTsSnap).1 = (20 : ℚ) from rfl])
    (by norm_num [clockTh,
          show (Rules.latest_sensor_reading zeroTsSnap).2.1 = (50 : ℚ) from rfl])
    (by norm_num [clockTh,
          show Rules.act_timestamp zeroTsSnap "f1" = (0 : ℤ) from rfl])

/-! ### Claims about the State Memory watchdog -/

/-- C7: one pass of the watchdog loop sets, for every lab in the store,
`alerts.sensor_offline` to exactly the truth value of
`(now - last_sensor_seen) > 2 * interval`, and changes nothing else: the
lab keys are preserved and each lab keeps its sensors, actuators and
`last_sensor_seen` (the pass deletes no data and produces no commands). -/
theorem C7_watchdog_pass_sets_offline_flag (interval now : ℤ)
    (st : List (String × StateMem.LabState)) (lab : String) :
    (StateMem.watchdog_pass interval now st).map Prod.fst = st.map Prod.fst ∧
    lookupA (StateMem.watchdog_pass interval now st) lab =
      (lookupA st lab).map (fun ls =>
        { ls with
          sensor_offline :=
            if now - ls.last_sensor_seen > 2 * interval then true else false }) := by
  constructor
  · simp [StateMem.watchdog_pass]
  · simp only [StateMem.watchdog_pass]
    exact lookupA_map_value
      (fun ls => { ls with
        sensor_offline :=
          if now - ls.last_sensor_seen > 2 * interval then true else false })
      st lab

/-! ### Claims about the bus message handler -/

/-- C8 (counterexample): a non-JSON payload does not always increment the
drop counter.  `_on_message` returns before `json.loads` when no
subscription matches the topic, so this malformed message leaves
`_dropped_messages` at 0 instead of incrementing it to 1. -/
theorem C8_counterexample :
    c8NoMatchMsg.payload = none ∧
    (Mqtt.on_message c8Subs 0 c8NoMatchMsg).invoked = [] ∧
    (Mqtt.on_message c8Subs 0 c8NoMatchMsg).dropped ≠ 0 + 1 := by decide

/-- C8 (amended): for every message that matches at least one
subscription, a non-JSON payload invokes no callback, increments the drop
counter by exactly 1 and raises nothing; and no message, whatever its
payload and callbacks, terminates the receiver (callback exceptions are
caught). -/
theorem C8_amended_drop_and_catch :
    (∀ (subs : List Mqtt.Subscription) (dropped : Nat) (msg : Mqtt.InMsg),
        msg.payload = none →
        subs.enum.filter (fun p => Mqtt.topic_matches_sub p.2.topic msg.topic) ≠ [] →
        (Mqtt.on_message subs dropped msg).invoked = [] ∧
        (Mqtt.on_message subs dropped msg).dropped = dropped + 1 ∧
        (Mqtt.on_message subs dropped msg).terminated = false) ∧
    (∀ (subs : List Mqtt.Subscription) (dropped : Nat) (msg : Mqtt.InMsg),
        (Mqtt.on_message subs dropped msg).terminated = false) := by
  constructor
  · intro subs dropped msg hpay hne
    simp [Mqtt.on_message, hpay, hne]
  · intro subs dropped msg
    simp only [Mqtt.on_message]
    split
    · rfl
    · split <;> rfl

/-- Witness for C8 (amended): a malformed payload on the matching topic
with the counter at 5. -/
theorem C8_amended_witness :
    (Mqtt.on_message c8Subs 5 c8MatchMsg).invoked = [] ∧
    (Mqtt.on_message c8Subs 5 c8MatchMsg).dropped = 5 + 1 ∧
    (Mqtt.on_message c8Subs 5 c8MatchMsg).terminated = false :=
  C8_amended_drop_and_catch.1 c8Subs 5 c8MatchMsg rfl (by decide)

/-! ### Claims about the Sensor Bridge -/

/-- C9 (counterexample): a payload whose `ts` field is present (with value
0) is not forwarded with that `ts`: the bridge calls `update_sensor` with
the server clock 12345 instead, because `0` is falsy in
`int(payload.get("ts") or time.time())`. -/
theorem C9_counterexample :
    c9Payload.ts = some 0 ∧
    (Bridge.on_sensor_message c9Topic c9Payload 12345).map
        (fun r => (r.1, r.2.1, r.2.2.2.2)) = some ("l1", "s1", 12345) ∧
    (12345 : ℤ) ≠ 0 := by decide

/-- C9 (amended): on every topic the regex accepts, the bridge calls
`update_sensor` with `t` (and `h`) equal to the payload value when numeric
and 0.0 when missing or non-numeric, and with `ts` equal to the payload
`ts` when present and nonzero, and to the server clock when `ts` is
missing or zero. -/
theorem C9_amended_field_defaults (topic lab_id sensor_id : String)
    (payload : Bridge.SensorPayload) (now : ℤ)
    (h : Bridge.parseTopic topic = some (lab_id, sensor_id)) :
    Bridge.on_sensor_message topic payload now =
      some (lab_id, sensor_id, specNum payload.t, specNum payload.h,
        specTs now payload.ts) := by
  rcases payload with ⟨pt, ph, pts⟩
  rcases pts with _ | v
  · rcases pt with _ | (q1 | _) <;> rcases ph with _ | (q2 | _) <;>
      simp [Bridge.on_sensor_message, h, Bridge.floatOrZero, specNum, specTs]
  · rcases pt with _ | (q1 | _) <;> rcases ph with _ | (q2 | _) <;>
      by_cases hv : v = 0 <;>
      simp [Bridge.on_sensor_message, h, Bridge.floatOrZero, specNum, specTs, hv]

/-- Witness for C9 (amended): missing `h`, zero `ts`, server clock 777. -/
theorem C9_amended_witness :
    Bridge.on_sensor_message c9Topic ⟨some (Bridge.JNum.num 25), none, some 0⟩ 777 =
      some ("l1", "s1", (25 : ℚ), (0 : ℚ), (777 : ℤ)) :=
  (C9_amended_field_defaults c9Topic "l1" "s1"
    ⟨some (Bridge.JNum.num 25), none, some 0⟩ 777 (by decide)).trans rfl

/-! ### Claims about the State Memory sensor updates -/

/-- C2 (counterexample): `last_sensor_seen` is NOT an upper bound of the
stored reading timestamps after out-of-order updates.  `update_sensor`
overwrites `last_sensor_seen` with the ts of the latest call: after `s1`
reports with ts=100 and `s2` with ts=50, `last_sensor_seen` is 50 while
the stored `s1` reading keeps ts=100. -/
theorem C2_counterexample :
    ¬ StateMem.lastSeenInvariant (StateMem.applyCalls c2Calls) := by decide

/-- C2 (amended): `last_sensor_seen` equals the ts of the lab's most
recent `update_sensor` call, so the invariant
`last_sensor_seen ≥ max(ts of stored readings)` holds on the empty store
and is preserved by every `update_sensor` whose ts is at least the lab's
current `last_sensor_seen` (per-lab non-decreasing timestamps); it can
break only for out-of-order timestamps. -/
theorem C2_amended_monotone_invariant :
    StateMem.lastSeenInvariant StateMem.emptyMem ∧
    ∀ (m : StateMem.Mem) (lab_id sensor_id : String) (t h : ℚ) (ts : ℤ),
      StateMem.lastSeenInvariant m →
      ((lookupA m.state lab_id).getD StateMem.emptyLab).last_sensor_seen ≤ ts →
      StateMem.lastSeenInvariant
        (StateMem.update_sensor lab_id sensor_id t h ts m) := by
  constructor
  · intro p hp
    simp [StateMem.emptyMem] at hp
  · intro m lab_id sensor_id t h ts hinv hmono p hp q hq
    rw [StateMem.update_sensor_state] at hp
    rcases mem_setAssoc hp with hpe | hpm
    · subst hpe
      rcases mem_setAssoc hq with hqe | hqm
      · subst hqe
        exact le_refl ts
      · show q.2.ts ≤ ts
        cases hlook : lookupA m.state lab_id with
        | none =>
            rw [hlook] at hqm
            simp [StateMem.emptyLab] at hqm
        | some ls =>
            rw [hlook] at hqm
            have h1 : q.2.ts ≤ ls.last_sensor_seen :=
              hinv (lab_id, ls) (lookupA_mem hlook) q hqm
            have h2 : ls.last_sensor_seen ≤ ts := by
              rw [hlook] at hmono
              exact hmono
            exact le_trans h1 h2
    · exact hinv p hpm q hq

/-- Witness for C2 (amended): a third in-order update (ts=200 after
ts=100) preserves the invariant. -/
theorem C2_amended_witness :
    StateMem.lastSeenInvariant (StateMem.update_sensor "lab1" "s2" 20 50 200 c2Mem) :=
  C2_amended_monotone_invariant.2 c2Mem "lab1" "s2" 20 50 200 (by decide) (by decide)

/-- C6: after any sequence of `update_sensor` calls, each stored `avg_t`
(resp. `avg_h`) equals the arithmetic mean of the last at most 3 `t`
(resp. `h`) values fed for that (lab, sensor) key: the sum of the last-3
window divided by its length (which is min(n,3) for n calls so far). -/
theorem C6_avg_trailing_window (cs : List StateMem.Call)
    (lab_id sensor_id : String) (e : StateMem.StoredSensor)
    (he : StateMem.sensorOf (StateMem.applyCalls cs) lab_id sensor_id = some e) :
    e.avg_t = (StateMem.lastN 3 (StateMem.tvalsOf cs lab_id sensor_id)).sum /
        ((StateMem.lastN 3 (StateMem.tvalsOf cs lab_id sensor_id)).length : ℚ) ∧
    e.avg_h = (StateMem.lastN 3 (StateMem.hvalsOf cs lab_id sensor_id)).sum /
        ((StateMem.lastN 3 (StateMem.hvalsOf cs lab_id sensor_id)).length : ℚ) := by
  induction cs using List.reverseRecOn with
  | nil =>
      simp [StateMem.applyCalls, StateMem.emptyMem, StateMem.sensorOf, lookupA] at he
  | append_singleton cs c ih =>
      rw [StateMem.applyCalls_append_one] at he
      simp only [StateMem.applyCall] at he
      by_cases h : c.lab_id = lab_id ∧ c.sensor_id = sensor_id
      · obtain ⟨h1, h2⟩ := h
        rw [h1, h2, StateMem.sensorOf_update_same] at he
        injection he with he
        subst he
        constructor
        · rw [show (StateMem.newEntry lab_id sensor_id c.t c.h c.ts
              (StateMem.applyCalls cs)).avg_t =
              ((StateMem.trimPush (StateMem.histOf (StateMem.applyCalls cs)
                  lab_id sensor_id) (c.t, c.h)).map Prod.fst).sum /
                ((StateMem.trimPush (StateMem.histOf (StateMem.applyCalls cs)
                  lab_id sensor_id) (c.t, c.h)).length : ℚ) from rfl]
          have hlist : StateMem.lastN 3 (StateMem.tvalsOf (cs ++ [c]) lab_id sensor_id) =
              (StateMem.trimPush (StateMem.histOf (StateMem.applyCalls cs)
                lab_id sensor_id) (c.t, c.h)).map Prod.fst := by
            rw [StateMem.histOf_applyCalls, StateMem.trimPush_lastN, StateMem.lastN_map]
            simp only [StateMem.tvalsOf]
            rw [StateMem.pairsOf_append_one, if_pos ⟨h1, h2⟩, List.map_append]
          rw [hlist, List.length_map]
        · rw [show (StateMem.newEntry lab_id sensor_id c.t c.h c.ts
              (StateMem.applyCalls cs)).avg_h =
              ((StateMem.trimPush (StateMem.histOf (StateMem.applyCalls cs)
                  lab_id sensor_id) (c.t, c.h)).map Prod.snd).sum /
                ((StateMem.trimPush (StateMem.histOf (StateMem.applyCalls cs)
                  lab_id sensor_id) (c.t, c.h)).length : ℚ) from rfl]
          have hlist : StateMem.lastN 3 (StateMem.hvalsOf (cs ++ [c]) lab_id sensor_id) =
              (StateMem.trimPush (StateMem.histOf (StateMem.applyCalls cs)
                lab_id sensor_id) (c.t, c.h)).map Prod.snd := by
            rw [StateMem.histOf_applyCalls, StateMem.trimPush_lastN, StateMem.lastN_map]
            simp only [StateMem.hvalsOf]
            rw [StateMem.pairsOf_append_one, if_pos ⟨h1, h2⟩, List.map_append]
          rw [hlist, List.length_map]
      · rw [StateMem.sensorOf_update_other _ _ _ _ _ _ _ _ h] at he
        have hT : StateMem.tvalsOf (cs ++ [c]) lab_id sensor_id =
            StateMem.tvalsOf cs lab_id sensor_id := by
          simp only [StateMem.tvalsOf]
          rw [StateMem.pairsOf_append_one, if_neg h, List.append_nil]
        have hH : StateMem.hvalsOf (cs ++ [c]) lab_id sensor_id =
            StateMem.hvalsOf cs lab_id sensor_id := by
          simp only [StateMem.hvalsOf]
          rw [StateMem.pairsOf_append_one, if_neg h, List.append_nil]
        rw [hT, hH]
        exact ih he

/-- Witness for C6: four updates with t values 1,2,3,4 for one sensor. -/
theorem C6_avg_trailing_window_witness :
    c6Entry.avg_t = (StateMem.lastN 3 (StateMem.tvalsOf c6Calls "l" "s")).sum /
        ((StateMem.lastN 3 (StateMem.tvalsOf c6Calls "l" "s")).length : ℚ) ∧
    c6Entry.avg_h = (StateMem.lastN 3 (StateMem.hvalsOf c6Calls "l" "s")).sum /
        ((StateMem.lastN 3 (StateMem.hvalsOf c6Calls "l" "s")).length : ℚ) :=
  C6_avg_trailing_window c6Calls "l" "s" c6Entry rfl

end LabCtl
